import Mathlib

/-
Verification of the transaction-synchronization pipeline of the
`test_starling` repository (`src/cli.rs`, `src/client.rs`).

Modelling conventions:
- `chrono::DateTime<Utc>` timestamps are integer seconds since the epoch
  (`Timestamp := Int`); `chrono::Duration::days n` is `n * 86400` seconds.
- Network I/O is made explicit: each fetch takes the provider's response as an
  argument (`HttpResult`), where `transportError` is a failed `send()` and
  `response status body` is a received HTTP response whose body
  deserialization result is `body : Option _` (`none` = the body did not
  match the expected shape).
- A Rust panic (`unwrap()` / `expect()` on a failed result) is the
  `RunResult.panicked` outcome; a normal return is `RunResult.ok`.
- `eprintln!` output is modelled as the list of messages a call emits.
- Rust's `#[derive(Ord)]` on `Transaction` is the lexicographic order over the
  fields in declaration order; it is embedded via an injective key into nested
  lexicographic products and `LinearOrder.lift'`.
- `itertools`' `sorted()` is a stable sort by `Ord`; as a function of the
  input list any stable sort agrees with it, and over this total antisymmetric
  order the sorted list is unique, so it is modelled by `List.insertionSort`.
-/

namespace Starling

/-- Timestamps are integer seconds since the Unix epoch (models
`chrono::DateTime<Utc>`). -/
abbrev Timestamp := Int

/-- Models `chrono::Duration::days` measured in seconds. -/
def Duration.days (n : Int) : Int := n * 86400

/-- Transaction direction (client.rs, `enum Direction`). -/
inductive Direction where
  | In
  | Out
deriving DecidableEq

/-- Currencies (client.rs, `enum Currency`). -/
inductive Currency where
  | GBP
  | USD
  | EUR
deriving DecidableEq

/-- Monetary amount in integer minor units (client.rs, `struct CurrencyValue`). -/
structure CurrencyValue where
  pennies : Nat
  currency : Currency
deriving DecidableEq

/-- Settlement status (client.rs, `enum Status`). -/
inductive Status where
  | Upcoming
  | Pending
  | Settled
  | AccountCheck
deriving DecidableEq

/-- A transaction returned from the API (client.rs, `struct Transaction`),
fields in the source's declaration order: that order determines the derived
`Ord`. -/
structure Transaction where
  time : Timestamp
  uid : String
  counterparty_name : String
  direction : Direction
  sourceAmount : CurrencyValue
  reference : String
  status : Status
deriving DecidableEq

/-- Variant index of `Direction`, as used by Rust's derived `Ord`. -/
def Direction.rank : Direction → Nat
  | .In => 0
  | .Out => 1

/-- Variant index of `Currency`, as used by Rust's derived `Ord`. -/
def Currency.rank : Currency → Nat
  | .GBP => 0
  | .USD => 1
  | .EUR => 2

/-- Variant index of `Status`, as used by Rust's derived `Ord`. -/
def Status.rank : Status → Nat
  | .Upcoming => 0
  | .Pending => 1
  | .Settled => 2
  | .AccountCheck => 3

/-- Lexicographic key of `CurrencyValue` (derived `Ord`: `pennies`, then
`currency`). -/
def CurrencyValue.key (v : CurrencyValue) : Nat ×ₗ Nat :=
  toLex (v.pennies, v.currency.rank)

/-- Tie-break key of a `Transaction`: every field after `time`, in declaration
order, combined lexicographically (the tail of the derived `Ord`). -/
def Transaction.tieKey (t : Transaction) :
    String ×ₗ (String ×ₗ (Nat ×ₗ ((Nat ×ₗ Nat) ×ₗ (String ×ₗ Nat)))) :=
  toLex (t.uid, toLex (t.counterparty_name, toLex (t.direction.rank,
    toLex (t.sourceAmount.key, toLex (t.reference, t.status.rank)))))

/-- Full lexicographic key of a `Transaction`: `time` first, then the
tie-break key — exactly Rust's `#[derive(Ord)]` over the declared fields. -/
def Transaction.key (t : Transaction) :
    Int ×ₗ (String ×ₗ (String ×ₗ (Nat ×ₗ ((Nat ×ₗ Nat) ×ₗ (String ×ₗ Nat))))) :=
  toLex (t.time, t.tieKey)

/-- Injectivity of the `Direction` variant index. -/
def Direction.rank_injective : Function.Injective Direction.rank := by
  intro a b h
  cases a <;> cases b <;> simp [Direction.rank] at h ⊢

/-- Injectivity of the `Currency` variant index. -/
def Currency.rank_injective : Function.Injective Currency.rank := by
  intro a b h
  cases a <;> cases b <;> simp [Currency.rank] at h ⊢

/-- Injectivity of the `Status` variant index. -/
def Status.rank_injective : Function.Injective Status.rank := by
  intro a b h
  cases a <;> cases b <;> simp [Status.rank] at h ⊢

/-- Injectivity of the `CurrencyValue` key. -/
def CurrencyValue.key_injective : Function.Injective CurrencyValue.key := by
  intro a b h
  simp only [CurrencyValue.key, toLex_inj, Prod.mk.injEq] at h
  obtain ⟨h1, h2⟩ := h
  have h2' := Currency.rank_injective h2
  cases a; cases b
  cases h1; cases h2'; rfl

/-- Injectivity of the `Transaction` key: the key determines the record. -/
def Transaction.key_injective : Function.Injective Transaction.key := by
  intro a b h
  simp only [Transaction.key, Transaction.tieKey, toLex_inj, Prod.mk.injEq] at h
  obtain ⟨h1, h2, h3, h4, h5, h6, h7⟩ := h
  have h4' := Direction.rank_injective h4
  have h5' := CurrencyValue.key_injective h5
  have h7' := Status.rank_injective h7
  cases a; cases b
  cases h1; cases h2; cases h3; cases h4'; cases h5'; cases h6; cases h7'; rfl

/-- The total order on `Transaction` given by the derived `Ord`. -/
instance : LinearOrder Transaction :=
  LinearOrder.lift' Transaction.key Transaction.key_injective

-- ACCOUNTS ------------------------------------------------------------------

/-- Modelled from the spec: `ApiKey` lives in `src/persist.rs`, which is not
under `src/`; per spec §6 it is one opaque bearer credential, "an opaque
string token". In the source it is used as a one-field tuple struct
(`self.key.0`). -/
structure ApiKey where
  token : String
deriving DecidableEq

/-- Individual result of the "accounts" API call (client.rs,
`struct AccountDetail`). -/
structure AccountDetail where
  name : String
  account_uid : String
  default_category : String
  created_at : Timestamp
deriving DecidableEq

/-- Result envelope of the "accounts" API call (client.rs,
`struct AccountDetails`). -/
structure AccountDetails where
  accounts : List AccountDetail
deriving DecidableEq

/-- Response envelope of the transaction-feed API calls (client.rs,
`struct Transactions`). -/
structure Transactions where
  feed_items : List Transaction
deriving DecidableEq

/-- A Starling account session (client.rs, `struct StarlingAccount`). -/
structure StarlingAccount where
  key : ApiKey
  detail : AccountDetail
deriving DecidableEq

-- EFFECT MODEL --------------------------------------------------------------

/-- Outcome of a network call: `transportError` models a failed `send()`;
`response status body` models a received response with the given HTTP status,
where `body = none` means the body failed to deserialize into `β`. -/
inductive HttpResult (β : Type) where
  | transportError
  | response (status : Nat) (body : Option β)
deriving DecidableEq

/-- Outcome of running a (possibly panicking) piece of Rust code:
`panicked` models a panic from `unwrap()` / `expect()`. -/
inductive RunResult (α : Type) where
  | panicked
  | ok (a : α)
deriving DecidableEq

/-- Models `futures::future::join_all` over fetch futures each of which may
panic: the gather completes only when every future returned normally, and a
panic in any future aborts the whole gather. -/
def join_all {α : Type} : List (RunResult α) → RunResult (List α)
  | [] => .ok []
  | .panicked :: _ => .panicked
  | .ok a :: rest =>
      match join_all rest with
      | .panicked => .panicked
      | .ok as => .ok (a :: as)

-- QUERIES AND FETCHES (client.rs) -------------------------------------------

/-- Query parameters of `transactions_since` (client.rs,
`struct QueryChangesSince`). -/
structure QueryChangesSince where
  changes_since : Timestamp
deriving DecidableEq

/-- Query parameters of `settled_transactions_between` (client.rs,
`struct QueryChangesBetween`). -/
structure QueryChangesBetween where
  min_transaction_timestamp : Timestamp
  max_transaction_timestamp : Timestamp
deriving DecidableEq

/-- Models `StarlingAccount::transactions_since`. The current instant is the
explicit parameter `now` (`Utc::now()` in the source); `resp` is the
provider's response. The function builds the query, then `unwrap()`s the send
result and the deserialization result, so a transport error or a body that
does not parse as `Transactions` panics; the HTTP status is never examined. -/
def StarlingAccount.transactions_since (_a : StarlingAccount) (now : Timestamp)
    (since : Int) (resp : HttpResult Transactions) :
    QueryChangesSince × RunResult (List Transaction) :=
  (⟨now - since⟩,
    match resp with
    | .transportError => .panicked
    | .response _ none => .panicked
    | .response _ (some ts) => .ok ts.feed_items)

/-- Models `StarlingAccount::settled_transactions_between`. The two
`Utc::now()` calls in the source are modelled as the single query-time
instant `now`. The query window is `[now - since, now]`; the send result and
the deserialization result are `unwrap()`ed (panic on failure) and the HTTP
status is never examined. -/
def StarlingAccount.settled_transactions_between (_a : StarlingAccount)
    (now : Timestamp) (since : Int) (resp : HttpResult Transactions) :
    QueryChangesBetween × RunResult (List Transaction) :=
  (⟨now - since, now⟩,
    match resp with
    | .transportError => .panicked
    | .response _ none => .panicked
    | .response _ (some ts) => .ok ts.feed_items)

/-- Models `StarlingAccount::get_account_details`. Returns the emitted
`eprintln!` messages together with the run outcome. A transport error returns
`None` (the source comment notes it should be an error); on status 200 the
body is `expect()`ed (panic if it does not deserialize) and the first account
of the list is taken; on 403 and on every other status a message is printed
and `None` is returned. -/
def get_account_details (resp : HttpResult AccountDetails) :
    List String × RunResult (Option AccountDetail) :=
  match resp with
  | .transportError => ([], .ok none)
  | .response s body =>
      if s = 200 then
        match body with
        | some details => ([], .ok details.accounts.head?)
        | none => ([], .panicked)
      else if s = 403 then
        (["ERROR: Need to grab a new token"], .ok none)
      else
        (["ERROR: Could not get account details"], .ok none)

/-- Models `StarlingAccount::new`: resolve the account details for the key
(propagating `None` via `?`) and build the session. -/
def StarlingAccount.new (key : ApiKey) (resp : HttpResult AccountDetails) :
    RunResult (Option StarlingAccount) :=
  match (get_account_details resp).2 with
  | .panicked => .panicked
  | .ok none => .ok none
  | .ok (some detail) => .ok (some ⟨key, detail⟩)

-- SYNC ORCHESTRATION (cli.rs) -----------------------------------------------

/-- The pure merge step of `do_update` (cli.rs line 43):
`new_transactions.into_iter().flatten().sorted().collect()`. `sorted()` is
itertools' stable sort by `Ord`; modelled by insertion sort, which computes
the same function (both are stable sorts of the same total order, and the
order is antisymmetric, so the sorted list is unique). -/
def do_update_sequence (results : List (List Transaction)) : List Transaction :=
  List.insertionSort (· ≤ ·) results.flatten

/-- What `do_update` does with the merged sequence: it is printed line by
line, and the very same sequence is passed to `persist::update_transactions`. -/
structure DoUpdateEffects where
  displayed : List Transaction
  persisted : List Transaction
deriving DecidableEq

/-- Models `do_update` (cli.rs): fetch settled transactions from every
account concurrently (`join_all`; each per-account response is supplied as
input), flatten and sort, then display and persist the result. A panic in
any fetch propagates out of the `join_all` await and aborts the whole
update. -/
def do_update (accounts : List (StarlingAccount × HttpResult Transactions))
    (now : Timestamp) (days : Int) : RunResult DoUpdateEffects :=
  match join_all (accounts.map fun p =>
      (p.1.settled_transactions_between now (Duration.days days) p.2).2) with
  | .panicked => .panicked
  | .ok results =>
      let new_transactions := do_update_sequence results
      .ok ⟨new_transactions, new_transactions⟩

/-- Successful provider responses for a list of accounts: every account
answers 200 with a body that deserializes. -/
def okResponses (accs : List (StarlingAccount × Transactions)) :
    List (StarlingAccount × HttpResult Transactions) :=
  accs.map fun p => (p.1, HttpResult.response 200 (some p.2))

/-- The per-account transaction lists carried by successful responses. -/
def fetched (accs : List (StarlingAccount × Transactions)) :
    List (List Transaction) :=
  accs.map fun p => p.2.feed_items

-- PERSISTENCE (spec-modelled) -----------------------------------------------

/-- Modelled from the spec: `persist::update_transactions` lives in
`src/persist.rs`, which is not under `src/` (only its caller `do_update` is).
Spec §6: the Store exposes a merge guaranteed "idempotent under re-submission
of already-stored identifiers", keyed by transaction identifier. One merge
step: append the incoming transaction unless its identifier is already
stored. -/
def merge_one (store : List Transaction) (t : Transaction) : List Transaction :=
  if t.uid ∈ store.map Transaction.uid then store else store ++ [t]

/-- Modelled from the spec: the Store's merge (`persist::update_transactions`)
folds every incoming transaction into the stored list with `merge_one`,
keyed by transaction identifier (spec §6, `mergeAndPersist`). -/
def update_transactions (store new : List Transaction) : List Transaction :=
  new.foldl merge_one store

-- SAMPLE VALUES -------------------------------------------------------------

/-- Sample credential. -/
def key0 : ApiKey := ⟨"token-a"⟩

/-- Sample account detail. -/
def detail0 : AccountDetail := ⟨"personal", "acc-1", "cat-1", 0⟩

/-- Sample account session. -/
def acct0 : StarlingAccount := ⟨key0, detail0⟩

/-- A second sample account session. -/
def acct1 : StarlingAccount := ⟨⟨"token-b"⟩, ⟨"joint", "acc-2", "cat-2", 0⟩⟩

/-- Sample transaction (earlier timestamp). -/
def tx0 : Transaction := ⟨0, "tx1", "alice", .In, ⟨100, .GBP⟩, "ref", .Settled⟩

/-- Sample transaction (later timestamp). -/
def tx1 : Transaction := ⟨5, "tx2", "bob", .Out, ⟨200, .GBP⟩, "rent", .Settled⟩

-- HELPER LEMMAS -------------------------------------------------------------

/-- Characterization of the order: timestamp is the primary key, the
remaining fields (in declaration order) are the tie-break. -/
theorem Transaction.le_iff (a b : Transaction) :
    a ≤ b ↔ a.time < b.time ∨ (a.time = b.time ∧ a.tieKey ≤ b.tieKey) :=
  Prod.Lex.le_iff (a.time, a.tieKey) (b.time, b.tieKey)

/-- The merged sequence is a permutation of the concatenated fetch results. -/
theorem sequence_perm (results : List (List Transaction)) :
    List.Perm (do_update_sequence results) results.flatten :=
  List.perm_insertionSort _ _

/-- The merged sequence is sorted by the `Transaction` total order. -/
theorem sequence_sorted (results : List (List Transaction)) :
    (do_update_sequence results).Sorted (· ≤ ·) :=
  List.sorted_insertionSort _ _

/-- The gather panicks exactly when one of the gathered futures panicked. -/
theorem join_all_panicked {α : Type} (xs : List (RunResult α)) :
    join_all xs = RunResult.panicked ↔ RunResult.panicked ∈ xs := by
  induction xs with
  | nil => simp [join_all]
  | cons x rest ih =>
      cases x with
      | panicked => simp [join_all]
      | ok a =>
          cases h : join_all rest with
          | panicked => simp [join_all, h, ← ih, h]
          | ok as => simp [join_all, h, ← ih, h]

/-- Gathering a list of futures that all returned normally yields the list of
their values. -/
theorem join_all_ok_map {α β : Type} (f : β → α) (l : List β) :
    join_all (l.map fun b => RunResult.ok (f b)) = RunResult.ok (l.map f) := by
  induction l with
  | nil => rfl
  | cons b rest ih => simp [join_all, ih]

/-- Over uniformly successful responses the gather returns every account's
feed items, in account order. -/
theorem join_all_okResponses (accs : List (StarlingAccount × Transactions))
    (now : Timestamp) (d : Int) :
    join_all ((okResponses accs).map fun p =>
        (p.1.settled_transactions_between now d p.2).2) =
      RunResult.ok (fetched accs) := by
  rw [okResponses, List.map_map]
  exact join_all_ok_map (fun p => p.2.feed_items) accs

/-- Adding an already-present identifier, or any `merge_one` step, keeps every
stored identifier stored. -/
theorem uid_mem_merge_one (u : String) (s : List Transaction) (t : Transaction)
    (h : u ∈ s.map Transaction.uid) :
    u ∈ (merge_one s t).map Transaction.uid := by
  by_cases hm : t.uid ∈ s.map Transaction.uid
  · rw [merge_one, if_pos hm]; exact h
  · rw [merge_one, if_neg hm, List.map_append]
    exact List.mem_append_left _ h

/-- After a `merge_one` step the incoming identifier is stored. -/
theorem uid_mem_merge_one_self (s : List Transaction) (t : Transaction) :
    t.uid ∈ (merge_one s t).map Transaction.uid := by
  by_cases hm : t.uid ∈ s.map Transaction.uid
  · rw [merge_one, if_pos hm]; exact hm
  · rw [merge_one, if_neg hm, List.map_append]
    exact List.mem_append_right _ (by simp)

/-- The merge never removes a stored identifier. -/
theorem uid_mem_update_mono (u : String) (xs : List Transaction) :
    ∀ store : List Transaction, u ∈ store.map Transaction.uid →
      u ∈ (update_transactions store xs).map Transaction.uid := by
  induction xs with
  | nil => intro store h; exact h
  | cons x rest ih =>
      intro store h
      exact ih (merge_one store x) (uid_mem_merge_one u store x h)

/-- Every merged transaction's identifier ends up stored. -/
theorem uid_mem_update_of_mem (xs : List Transaction) :
    ∀ (store : List Transaction) (t : Transaction), t ∈ xs →
      t.uid ∈ (update_transactions store xs).map Transaction.uid := by
  induction xs with
  | nil => intro store t h; cases h
  | cons x rest ih =>
      intro store t h
      rcases List.mem_cons.mp h with rfl | h
      · exact uid_mem_update_mono t.uid rest (merge_one store t)
          (uid_mem_merge_one_self store t)
      · exact ih (merge_one store x) t h

/-- Merging transactions whose identifiers are all already stored is a
no-op. -/
theorem update_transactions_eq_self (xs : List Transaction) :
    ∀ store : List Transaction,
      (∀ t ∈ xs, t.uid ∈ store.map Transaction.uid) →
      update_transactions store xs = store := by
  induction xs with
  | nil => intro store _; rfl
  | cons x rest ih =>
      intro store h
      have hx : merge_one store x = store := by
        simp [merge_one, h x (List.mem_cons_self x rest)]
      show update_transactions (merge_one store x) rest = store
      rw [hx]
      exact ih store fun t ht => h t (List.mem_cons_of_mem x ht)

/-- The merge preserves distinctness of stored identifiers. -/
theorem nodup_update_transactions (xs : List Transaction) :
    ∀ store : List Transaction, (store.map Transaction.uid).Nodup →
      ((update_transactions store xs).map Transaction.uid).Nodup := by
  induction xs with
  | nil => intro store h; exact h
  | cons x rest ih =>
      intro store h
      refine ih (merge_one store x) ?_
      by_cases hm : x.uid ∈ store.map Transaction.uid
      · simpa [merge_one, hm] using h
      · simp only [merge_one, hm, if_false, List.map_append, List.map_cons,
          List.map_nil]
        rw [List.nodup_append]
        exact ⟨h, List.nodup_singleton _, by simpa using hm⟩

-- CLAIMS --------------------------------------------------------------------

/-- C1 counterexample: in a cycle with two accounts where the first account's
fetch hits a transport error and the second account's fetch succeeds (200
with a parseable body holding `tx0`), `do_update` does NOT complete with the
successful account's transactions: the failing fetch's `unwrap()` panics and
the whole cycle aborts, returning no result and recording no per-account
failure — contrary to the claim that one failure never fails the whole cycle. -/
theorem c1_partial_failure_counterexample :
    (acct1.settled_transactions_between 0 (Duration.days 7)
        (HttpResult.response 200 (some ⟨[tx0]⟩))).2 = RunResult.ok [tx0] ∧
    (acct0.settled_transactions_between 0 (Duration.days 7)
        HttpResult.transportError).2 = RunResult.panicked ∧
    do_update [(acct0, HttpResult.transportError),
               (acct1, HttpResult.response 200 (some ⟨[tx0]⟩))] 0 7 =
      RunResult.panicked ∧
    ¬ ∃ eff : DoUpdateEffects,
        do_update [(acct0, HttpResult.transportError),
                   (acct1, HttpResult.response 200 (some ⟨[tx0]⟩))] 0 7 =
          RunResult.ok eff := by
  refine ⟨rfl, rfl, rfl, ?_⟩
  rintro ⟨eff, h⟩
  cases h

/-- C1 amended: `do_update` aborts (panics) the whole sync cycle exactly when
at least one account's fetch panicked — even if other accounts succeeded; it
never records individual failures and there is no aggregate
`AllAccountsFailed` outcome, because the cycle only completes when every
fetch succeeded. -/
theorem c1_amended_panic_iff
    (accounts : List (StarlingAccount × HttpResult Transactions))
    (now : Timestamp) (days : Int) :
    do_update accounts now days = RunResult.panicked ↔
      ∃ p ∈ accounts,
        (p.1.settled_transactions_between now (Duration.days days) p.2).2 =
          RunResult.panicked := by
  have hmem : (join_all (accounts.map fun p =>
        (p.1.settled_transactions_between now (Duration.days days) p.2).2) =
        RunResult.panicked) ↔
      ∃ p ∈ accounts,
        (p.1.settled_transactions_between now (Duration.days days) p.2).2 =
          RunResult.panicked := by
    rw [join_all_panicked, List.mem_map]
  rw [← hmem]
  cases hj : join_all (accounts.map fun p =>
      (p.1.settled_transactions_between now (Duration.days days) p.2).2) with
  | panicked => simp [do_update, hj]
  | ok results => simp [do_update, hj]

/-- C2 counterexample: a transport error makes `settled_transactions_between`
panic (crash) instead of returning a typed `FetchError`; so does a body that
fails to deserialize; and a non-2xx response whose body happens to parse is
accepted silently, its status never examined — contrary to the claim. -/
theorem c2_typed_error_counterexample :
    (acct0.settled_transactions_between 0 (Duration.days 7)
        HttpResult.transportError).2 = RunResult.panicked ∧
    (acct0.settled_transactions_between 0 (Duration.days 7)
        (HttpResult.response 500 none)).2 = RunResult.panicked ∧
    (acct0.settled_transactions_between 0 (Duration.days 7)
        (HttpResult.response 500 (some ⟨[tx0]⟩))).2 = RunResult.ok [tx0] :=
  ⟨rfl, rfl, rfl⟩

/-- C2 amended: `settled_transactions_between` panics (crashes the process)
on any transport error and on any body-deserialization failure — no typed
`FetchError` exists — and it never examines the response status: a response
with any status whose body parses as `Transactions` yields its feed items. -/
theorem c2_amended_panic_behavior (a : StarlingAccount) (now : Timestamp)
    (since : Int) (s : Nat) (ts : Transactions) :
    (a.settled_transactions_between now since HttpResult.transportError).2 =
      RunResult.panicked ∧
    (a.settled_transactions_between now since (HttpResult.response s none)).2 =
      RunResult.panicked ∧
    (a.settled_transactions_between now since
        (HttpResult.response s (some ts))).2 = RunResult.ok ts.feed_items :=
  ⟨rfl, rfl, rfl⟩

/-- C3: the sequence produced by `do_update` is sorted ascending in the
`Transaction` total order, and that order has the timestamp as primary key
with the remaining fields (in declaration order) as deterministic tie-break;
the merge step is a pure function of the fetch results, so repeated runs on
the same input produce the same output. -/
theorem c3_output_sorted (results : List (List Transaction)) :
    (do_update_sequence results).Sorted (· ≤ ·) ∧
    (∀ a b : Transaction,
      a ≤ b ↔ a.time < b.time ∨ (a.time = b.time ∧ a.tieKey ≤ b.tieKey)) :=
  ⟨sequence_sorted results, fun a b => Transaction.le_iff a b⟩

/-- C5 counterexample: when the per-account fetch results repeat a record
(`tx0` fetched by both accounts), the sequence `do_update` hands to display
and persistence contains the repeated record twice — two entries with the
same identifier — so it is not deduplicated, contrary to the claim. -/
theorem c5_dedup_counterexample :
    do_update_sequence [[tx0], [tx0]] = [tx0, tx0] ∧
    ¬ ((do_update_sequence [[tx0], [tx0]]).map Transaction.uid).Nodup := by
  have hseq : do_update_sequence [[tx0], [tx0]] = [tx0, tx0] := by
    simp [do_update_sequence, List.insertionSort, List.orderedInsert, le_refl]
  refine ⟨hseq, ?_⟩
  rw [hseq]
  simp [tx0]

/-- C5 amended: the sequence handed to persistence and presentation is the
sorted concatenation of the per-account results with multiplicities
preserved — every record occurs exactly as often as it was fetched, so
repeated records are NOT removed; deduplication is left to the Store's
identifier-keyed merge. -/
theorem c5_amended_counts_preserved (results : List (List Transaction))
    (t : Transaction) :
    (do_update_sequence results).count t = results.flatten.count t :=
  (sequence_perm results).count_eq t

/-- C4: the Store's merge (spec-modelled `persist::update_transactions`, since
`src/persist.rs` is not available) is idempotent keyed by transaction
identifier: merging the identical sequence a second time leaves the stored
list unchanged, and merging never introduces a duplicate stored identifier. -/
theorem c4_idempotent_merge (store xs : List Transaction)
    (h : (store.map Transaction.uid).Nodup) :
    update_transactions (update_transactions store xs) xs =
      update_transactions store xs ∧
    ((update_transactions store xs).map Transaction.uid).Nodup :=
  ⟨update_transactions_eq_self xs (update_transactions store xs)
      fun t ht => uid_mem_update_of_mem xs store t ht,
   nodup_update_transactions xs store h⟩

/-- C4 witness: the double merge of `[tx0]` into the empty store equals the
single merge, and the stored identifiers stay distinct. -/
theorem c4_idempotent_merge_witness :
    (([] : List Transaction).map Transaction.uid).Nodup ∧
    (update_transactions (update_transactions [] [tx0]) [tx0] =
        update_transactions [] [tx0] ∧
     ((update_transactions [] [tx0]).map Transaction.uid).Nodup) :=
  ⟨by simp, c4_idempotent_merge [] [tx0] (by simp)⟩

/-- C6 counterexample: `get_account_details` returns the very same value
(`None`, no error at all) for a forbidden (403) response and for any other
non-success response (here 500): there is no `CredentialExpired` versus
`RetrievalFailed` distinction, and `StarlingAccount::new` gives the caller
identical outcomes for the two conditions — contrary to the claim. -/
theorem c6_distinct_error_counterexample :
    (get_account_details (HttpResult.response 403 none)).2 = RunResult.ok none ∧
    (get_account_details (HttpResult.response 500 none)).2 = RunResult.ok none ∧
    get_account_details HttpResult.transportError = ([], RunResult.ok none) ∧
    StarlingAccount.new key0 (HttpResult.response 403 none) =
      StarlingAccount.new key0 (HttpResult.response 500 none) :=
  ⟨rfl, rfl, rfl, rfl⟩

/-- C6 amended: on every non-success response, and on transport failure,
account resolution returns `None`; a forbidden response is distinguished only
by a differently worded message printed to stderr, never by the value the
caller receives. -/
theorem c6_amended_indistinguishable (s : Nat) (body : Option AccountDetails)
    (h : s ≠ 200) :
    (get_account_details (HttpResult.response s body)).2 = RunResult.ok none ∧
    (get_account_details HttpResult.transportError).2 = RunResult.ok none ∧
    (get_account_details (HttpResult.response 403 body)).1 =
      ["ERROR: Need to grab a new token"] ∧
    (s ≠ 403 →
      (get_account_details (HttpResult.response s body)).1 =
        ["ERROR: Could not get account details"]) := by
  refine ⟨?_, rfl, by simp [get_account_details], ?_⟩
  · by_cases h4 : s = 403 <;> simp [get_account_details, h, h4]
  · intro h4
    simp [get_account_details, h, h4]

/-- C6 amended witness: concrete instance at status 500 with an unparseable
body. -/
theorem c6_amended_witness :
    (500 : Nat) ≠ 200 ∧
    ((get_account_details (HttpResult.response 500 none)).2 = RunResult.ok none ∧
     (get_account_details HttpResult.transportError).2 = RunResult.ok none ∧
     (get_account_details (HttpResult.response 403 none)).1 =
       ["ERROR: Need to grab a new token"] ∧
     ((500 : Nat) ≠ 403 →
       (get_account_details (HttpResult.response 500 none)).1 =
         ["ERROR: Could not get account details"])) :=
  ⟨by decide, c6_amended_indistinguishable 500 none (by decide)⟩

/-- C7: the merged sequence is the same for any two collections of
per-account fetch results that are rearrangements of one another — the order
in which the concurrent fetches completed (modelled as a permutation of the
collected per-account result lists) never affects the output. -/
theorem c7_completion_order_irrelevant (r1 r2 : List (List Transaction))
    (h : List.Perm r1 r2) :
    do_update_sequence r1 = do_update_sequence r2 :=
  List.eq_of_perm_of_sorted
    ((sequence_perm r1).trans (h.flatten.trans (sequence_perm r2).symm))
    (sequence_sorted r1) (sequence_sorted r2)

/-- C7 witness: two accounts' results collected in either completion order
merge to the identical sequence. -/
theorem c7_completion_order_witness :
    do_update_sequence [[tx0], [tx1]] = do_update_sequence [[tx1], [tx0]] :=
  c7_completion_order_irrelevant [[tx0], [tx1]] [[tx1], [tx0]]
    (List.Perm.swap [tx1] [tx0] [])

/-- C8: for a positive day count, the settled-transactions query carries an
explicit window whose minimum timestamp is the query-time instant minus that
many days and whose maximum timestamp is the query-time instant. -/
theorem c8_window_bounds (a : StarlingAccount) (now : Timestamp) (days : Int)
    (resp : HttpResult Transactions) (h : 0 < days) :
    (a.settled_transactions_between now (Duration.days days)
        resp).1.min_transaction_timestamp = now - days * 86400 ∧
    (a.settled_transactions_between now (Duration.days days)
        resp).1.max_transaction_timestamp = now :=
  ⟨rfl, rfl⟩

/-- C8 witness: the 7-day window at instant 1000 runs from `1000 - 7 * 86400`
to `1000`. -/
theorem c8_window_witness :
    (0 : Int) < 7 ∧
    ((acct0.settled_transactions_between 1000 (Duration.days 7)
        HttpResult.transportError).1.min_transaction_timestamp =
          1000 - 7 * 86400 ∧
     (acct0.settled_transactions_between 1000 (Duration.days 7)
        HttpResult.transportError).1.max_transaction_timestamp = 1000) :=
  ⟨by decide, c8_window_bounds acct0 1000 7 HttpResult.transportError (by decide)⟩

/-- C9: a 200 response whose accounts list is empty makes
`get_account_details` (and hence `StarlingAccount::new`) return `None` — no
session is created — and that value is identical to the one returned for a
transport failure and for a forbidden response, so the caller cannot tell the
outcomes apart. -/
theorem c9_empty_account_list :
    (get_account_details (HttpResult.response 200 (some ⟨[]⟩))).2 =
      RunResult.ok none ∧
    StarlingAccount.new key0 (HttpResult.response 200 (some ⟨[]⟩)) =
      RunResult.ok none ∧
    StarlingAccount.new key0 (HttpResult.response 200 (some ⟨[]⟩)) =
      StarlingAccount.new key0 HttpResult.transportError ∧
    StarlingAccount.new key0 (HttpResult.response 200 (some ⟨[]⟩)) =
      StarlingAccount.new key0 (HttpResult.response 403 none) :=
  ⟨rfl, rfl, rfl, rfl⟩

/-- C10: when every account's fetch succeeds, `do_update` displays and
persists one and the same sequence, and that sequence is a sorted permutation
of the concatenation of the per-account results: every fetched transaction
occurs in it exactly as many times as it was fetched. -/
theorem c10_sorted_permutation (accs : List (StarlingAccount × Transactions))
    (now : Timestamp) (days : Int) :
    do_update (okResponses accs) now days =
      RunResult.ok ⟨do_update_sequence (fetched accs),
                    do_update_sequence (fetched accs)⟩ ∧
    List.Perm (do_update_sequence (fetched accs)) (fetched accs).flatten ∧
    (do_update_sequence (fetched accs)).Sorted (· ≤ ·) ∧
    ∀ t : Transaction,
      (do_update_sequence (fetched accs)).count t =
        ((fetched accs).flatten).count t := by
  refine ⟨?_, sequence_perm _, sequence_sorted _,
    fun t => (sequence_perm _).count_eq t⟩
  have hj := join_all_okResponses accs now (Duration.days days)
  simp [do_update, hj]

end Starling
